import Mathlib

/-!
Verification of the animation timeline controller and typed-text sequencer
of the birthday-gallery application (src/App.tsx).

The per-frame callback (`useFrame`) is embedded as a pure function
`tick : Bool → ℚ → ControllerState → ControllerState × TickEvents`.
Numbers are modelled as rationals; the scene rotation field `cakeRotYPi`
stores the coefficient of π (the source writes `cakeEase * Math.PI * 2`,
so the stored coefficient is `cakeEase * 2`; every value the source ever
writes to this slot is a rational multiple of π, so the representation is
faithful and injective).  Callback invocations (background-opacity change,
environment-progress change, animation-complete) are returned as explicit
event data in `TickEvents`.
-/

namespace BirthdayGallery

/-- `clamp(value, min, max) = Math.min(max, Math.max(min, value))` (App.tsx line 26). -/
def clamp (value lo hi : ℚ) : ℚ := min hi (max lo value)

/-- `lerp(from, to, t) = from + (to - from) * t` (App.tsx line 29). -/
def lerp (a b t : ℚ) : ℚ := a + (b - a) * t

/-- `easeOutCubic(t) = 1 - Math.pow(1 - t, 3)` (App.tsx line 31). -/
def easeOutCubic (t : ℚ) : ℚ := 1 - (1 - t) ^ 3

/-- App.tsx line 44. -/
def CAKE_START_Y : ℚ := 10

/-- App.tsx line 45. -/
def CAKE_END_Y : ℚ := 0

/-- App.tsx line 46. -/
def CAKE_DESCENT_DURATION : ℚ := 3

/-- App.tsx line 48. -/
def TABLE_START_Z : ℚ := 30

/-- App.tsx line 49. -/
def TABLE_END_Z : ℚ := 0

/-- App.tsx line 50 (`0.7`). -/
def TABLE_SLIDE_DURATION : ℚ := 7/10

/-- App.tsx line 51: `CAKE_DESCENT_DURATION - TABLE_SLIDE_DURATION - 0.1`. -/
def TABLE_SLIDE_START : ℚ := CAKE_DESCENT_DURATION - TABLE_SLIDE_DURATION - 1/10

/-- App.tsx line 53. -/
def CANDLE_START_Y : ℚ := 5

/-- App.tsx line 54. -/
def CANDLE_END_Y : ℚ := 0

/-- App.tsx line 55 (`1.2`). -/
def CANDLE_DROP_DURATION : ℚ := 6/5

/-- App.tsx lines 56-58:
`Math.max(CAKE_DESCENT_DURATION, TABLE_SLIDE_START + TABLE_SLIDE_DURATION) + 1.0`. -/
def CANDLE_DROP_START : ℚ :=
  max CAKE_DESCENT_DURATION (TABLE_SLIDE_START + TABLE_SLIDE_DURATION) + 1

/-- App.tsx line 60: `CANDLE_DROP_START + CANDLE_DROP_DURATION`. -/
def totalAnimationTime : ℚ := CANDLE_DROP_START + CANDLE_DROP_DURATION

/-- App.tsx line 71. -/
def BACKGROUND_FADE_DURATION : ℚ := 1

/-- App.tsx line 72. -/
def BACKGROUND_FADE_OFFSET : ℚ := 0

/-- App.tsx lines 73-76. -/
def BACKGROUND_FADE_END : ℚ :=
  max (CANDLE_DROP_START - BACKGROUND_FADE_OFFSET) BACKGROUND_FADE_DURATION

/-- App.tsx lines 77-80. -/
def BACKGROUND_FADE_START : ℚ :=
  max (BACKGROUND_FADE_END - BACKGROUND_FADE_DURATION) 0

/-- The three controlled transforms (cake, table, candle groups): positions,
rotations and the candle visibility flag.  Rotation-y of the cake is stored
as the coefficient of π. -/
structure SceneState where
  cakeX : ℚ
  cakeY : ℚ
  cakeZ : ℚ
  cakeRotX : ℚ
  cakeRotYPi : ℚ
  cakeRotZ : ℚ
  tableX : ℚ
  tableY : ℚ
  tableZ : ℚ
  tableRotX : ℚ
  tableRotY : ℚ
  tableRotZ : ℚ
  candleX : ℚ
  candleY : ℚ
  candleZ : ℚ
  candleVisible : Bool
deriving DecidableEq, Repr

/-- The controller's ref cells (App.tsx lines 136-141):
`animationStartRef`, `hasPrimedRef`, `hasCompletedRef`,
`completionNotifiedRef`, `backgroundOpacityRef`, `environmentProgressRef`. -/
structure TimelineState where
  animationStart : Option ℚ
  hasPrimed : Bool
  hasCompleted : Bool
  completionNotified : Bool
  backgroundOpacity : ℚ
  environmentProgress : ℚ
deriving DecidableEq, Repr

/-- Scene refs plus timeline refs: the full mutable state of `AnimatedScene`. -/
structure ControllerState where
  scene : SceneState
  tl : TimelineState
deriving DecidableEq, Repr

/-- Observable side effects of one frame callback: values forwarded to
`onBackgroundFadeChange`, values forwarded to `onEnvironmentProgressChange`
(in call order), and the number of `onAnimationComplete` invocations. -/
structure TickEvents where
  opacityEvents : List ℚ
  progressEvents : List ℚ
  completionCount : Nat
deriving DecidableEq, Repr

/-- `emitBackgroundOpacity` / `emitEnvironmentProgress` (App.tsx lines 148-162):
clamp the value to [0,1]; when the clamped value differs from the stored
last-emitted value by more than 0.005, store it and forward it to the
consumer; otherwise do nothing.  Returns (new stored value, forwarded value). -/
def emitValue (last value : ℚ) : ℚ × Option ℚ :=
  let clamped := clamp value 0 1
  if 1/200 < |clamped - last| then (clamped, some clamped) else (last, none)

/-- Cake vertical position as a function of clamped elapsed time
(App.tsx lines 209-211). -/
def cakeYAt (clampedElapsed : ℚ) : ℚ :=
  lerp CAKE_START_Y CAKE_END_Y
    (easeOutCubic (clamp (clampedElapsed / CAKE_DESCENT_DURATION) 0 1))

/-- Table z position as a function of clamped elapsed time
(App.tsx lines 218-227). -/
def tableZAt (clampedElapsed : ℚ) : ℚ :=
  if TABLE_SLIDE_START ≤ clampedElapsed then
    lerp TABLE_START_Z TABLE_END_Z
      (easeOutCubic
        (clamp ((clampedElapsed - TABLE_SLIDE_START) / TABLE_SLIDE_DURATION) 0 1))
  else TABLE_START_Z

/-- The (backgroundOpacity, environmentProgress) pair computed by the fade
section of the playing branch (App.tsx lines 247-260). -/
def fadePair (clampedElapsed : ℚ) : ℚ × ℚ :=
  if clampedElapsed < BACKGROUND_FADE_START then (1, 0)
  else
    let fadeProgress :=
      clamp ((clampedElapsed - BACKGROUND_FADE_START) / BACKGROUND_FADE_DURATION) 0 1
    let eased := easeOutCubic fadeProgress
    let backgroundOpacity := 1 - eased
    (backgroundOpacity, 1 - backgroundOpacity)

/-- The primed pose (App.tsx lines 173-181): cake at (0, CAKE_START_Y, 0)
rotation zero, table at (0, 0, TABLE_START_Z) rotation zero, candle hidden
at (0, CANDLE_START_Y, 0). -/
def primedScene : SceneState where
  cakeX := 0
  cakeY := CAKE_START_Y
  cakeZ := 0
  cakeRotX := 0
  cakeRotYPi := 0
  cakeRotZ := 0
  tableX := 0
  tableY := 0
  tableZ := TABLE_START_Z
  tableRotX := 0
  tableRotY := 0
  tableRotZ := 0
  candleX := 0
  candleY := CANDLE_START_Y
  candleZ := 0
  candleVisible := false

/-- One-time priming (App.tsx lines 173-181), performed on every frame
before the play-state branches when `hasPrimedRef` is still false. -/
def primeIfNeeded (s : ControllerState) : ControllerState :=
  if s.tl.hasPrimed then s
  else { scene := primedScene, tl := { s.tl with hasPrimed := true } }

/-- The pause branch (App.tsx lines 183-190): emit opacity 1 and progress 0
through the deadband, clear the animation start time, reset `hasCompleted`
and `completionNotified`, touch no transform. -/
def pauseTick (s : ControllerState) : ControllerState × TickEvents :=
  let op := emitValue s.tl.backgroundOpacity 1
  let pr := emitValue s.tl.environmentProgress 0
  ({ scene := s.scene,
     tl := { s.tl with
              backgroundOpacity := op.1
              environmentProgress := pr.1
              animationStart := none
              hasCompleted := false
              completionNotified := false } },
   { opacityEvents := op.2.toList
     progressEvents := pr.2.toList
     completionCount := 0 })

/-- The completed branch (App.tsx lines 192-200): emit opacity 0 and
progress 1 through the deadband, fire the completion callback once
(guarded by `completionNotifiedRef`), touch no transform. -/
def completedTick (s : ControllerState) : ControllerState × TickEvents :=
  let op := emitValue s.tl.backgroundOpacity 0
  let pr := emitValue s.tl.environmentProgress 1
  ({ scene := s.scene,
     tl := { s.tl with
              backgroundOpacity := op.1
              environmentProgress := pr.1
              completionNotified := true } },
   { opacityEvents := op.2.toList
     progressEvents := pr.2.toList
     completionCount := if s.tl.completionNotified then 0 else 1 })

/-- The playing branch (App.tsx lines 202-276): set the animation start time
if unset, compute clamped elapsed time, write the cake, table and candle
transforms, run the background fade emission, then the terminal check that
snaps every transform to its end pose, forces opacity 0 / progress 1, sets
`hasCompleted` and fires the one-shot completion callback. -/
def playingTick (clockTime : ℚ) (s : ControllerState) : ControllerState × TickEvents :=
  let start := s.tl.animationStart.getD clockTime
  let elapsed := clockTime - start
  let clampedElapsed := clamp elapsed 0 totalAnimationTime
  let cakeProgress := clamp (clampedElapsed / CAKE_DESCENT_DURATION) 0 1
  let cakeEase := easeOutCubic cakeProgress
  let scene1 : SceneState :=
    { s.scene with
        cakeY := cakeYAt clampedElapsed
        cakeX := 0
        cakeZ := 0
        cakeRotYPi := cakeEase * 2
        cakeRotX := 0
        cakeRotZ := 0
        tableX := 0
        tableY := 0
        tableZ := tableZAt clampedElapsed
        tableRotX := 0
        tableRotY := 0
        tableRotZ := 0 }
  let scene2 : SceneState :=
    if CANDLE_DROP_START ≤ clampedElapsed then
      { scene1 with
          candleVisible := true
          candleY :=
            lerp CANDLE_START_Y CANDLE_END_Y
              (easeOutCubic
                (clamp ((clampedElapsed - CANDLE_DROP_START) / CANDLE_DROP_DURATION) 0 1)) }
    else
      { scene1 with
          candleVisible := false
          candleX := 0
          candleY := CANDLE_START_Y
          candleZ := 0 }
  let fade := fadePair clampedElapsed
  let op1 := emitValue s.tl.backgroundOpacity fade.1
  let pr1 := emitValue s.tl.environmentProgress fade.2
  if totalAnimationTime ≤ clampedElapsed then
    let scene3 : SceneState :=
      { scene2 with
          cakeX := 0
          cakeY := CAKE_END_Y
          cakeZ := 0
          cakeRotX := 0
          cakeRotYPi := 0
          cakeRotZ := 0
          tableX := 0
          tableY := 0
          tableZ := TABLE_END_Z
          candleX := 0
          candleY := CANDLE_END_Y
          candleZ := 0
          candleVisible := true }
    let op2 := emitValue op1.1 0
    let pr2 := emitValue pr1.1 1
    ({ scene := scene3,
       tl := { s.tl with
                animationStart := some start
                backgroundOpacity := op2.1
                environmentProgress := pr2.1
                hasCompleted := true
                completionNotified := true } },
     { opacityEvents := op1.2.toList ++ op2.2.toList
       progressEvents := pr1.2.toList ++ pr2.2.toList
       completionCount := if s.tl.completionNotified then 0 else 1 })
  else
    ({ scene := scene2,
       tl := { s.tl with
                animationStart := some start
                backgroundOpacity := op1.1
                environmentProgress := pr1.1 } },
     { opacityEvents := op1.2.toList
       progressEvents := pr1.2.toList
       completionCount := 0 })

/-- The whole `useFrame` callback (App.tsx lines 164-277) as a pure step:
prime once, then dispatch to the pause, completed or playing branch. -/
def tick (isPlaying : Bool) (clockTime : ℚ) (s : ControllerState) :
    ControllerState × TickEvents :=
  let s := primeIfNeeded s
  if !isPlaying then pauseTick s
  else if s.tl.hasCompleted then completedTick s
  else playingTick clockTime s

/-- Fold a list of clock times through playing ticks, accumulating the
total number of completion-callback invocations. -/
def runPlay (ts : List ℚ) (s : ControllerState) : ControllerState × Nat :=
  match ts with
  | [] => (s, 0)
  | t :: rest =>
    let r := tick true t s
    let r2 := runPlay rest r.1
    (r2.1, r.2.completionCount + r2.2)

/-- Initial ref values (App.tsx lines 136-141) over the default group
transforms (three.js defaults: origin, zero rotation, visible). -/
def initialState : ControllerState where
  scene :=
    { cakeX := 0, cakeY := 0, cakeZ := 0
      cakeRotX := 0, cakeRotYPi := 0, cakeRotZ := 0
      tableX := 0, tableY := 0, tableZ := 0
      tableRotX := 0, tableRotY := 0, tableRotZ := 0
      candleX := 0, candleY := 0, candleZ := 0
      candleVisible := true }
  tl :=
    { animationStart := none
      hasPrimed := false
      hasCompleted := false
      completionNotified := false
      backgroundOpacity := 1
      environmentProgress := 0 }

/-- A primed, playing-ready state: the scene at the primed pose, the
animation clock started at time 0, signals at their initial (1, 0). -/
def readyState : ControllerState where
  scene := primedScene
  tl :=
    { animationStart := some 0
      hasPrimed := true
      hasCompleted := false
      completionNotified := false
      backgroundOpacity := 1
      environmentProgress := 0 }

/-- Helper for the skip-empty-lines loop: `suffix` is the list of lines from
index `i` on; advance past leading zero-length lines. -/
def skipEmptyAux : List String → Nat → Nat
  | [], i => i
  | l :: rest, i => if l.length = 0 then skipEmptyAux rest (i + 1) else i

/-- The skip-empty-lines loop of the typed-text sequencer (App.tsx lines
605-611): starting at index `i`, advance past every zero-length line,
returning the first index at or after `i` whose line is non-empty, or the
first out-of-range index. -/
def skipEmptyFrom (lines : List String) (i : Nat) : Nat :=
  skipEmptyAux (lines.drop i) i

/-- `(currentLineIndex, currentCharIndex)` of the typed-text sequencer
(App.tsx lines 395-396). -/
structure TypingState where
  lineIndex : Nat
  charIndex : Nat
deriving DecidableEq, Repr

/-- `typingComplete = currentLineIndex >= TYPED_LINES.length`
(App.tsx line 551). -/
def typingComplete (lines : List String) (st : TypingState) : Bool :=
  lines.length ≤ st.lineIndex

/-- One firing of the typing timer (App.tsx lines 597-615): when typing is
not complete, either reveal one more character of the current line, or —
when the current line is fully revealed — advance to the next line index,
skipping every zero-length line, and reset the character index.  When
typing is complete the timer instead schedules the scene start and the
typing state is unchanged. -/
def typeStep (lines : List String) (st : TypingState) : TypingState :=
  if typingComplete lines st then st
  else
    let currentLine := lines.getD st.lineIndex ""
    if st.charIndex < currentLine.length then
      { st with charIndex := st.charIndex + 1 }
    else
      { lineIndex := skipEmptyFrom lines (st.lineIndex + 1), charIndex := 0 }

/-- The exact end pose of the terminal snap (App.tsx lines 263-268). -/
def endScene : SceneState where
  cakeX := 0
  cakeY := CAKE_END_Y
  cakeZ := 0
  cakeRotX := 0
  cakeRotYPi := 0
  cakeRotZ := 0
  tableX := 0
  tableY := 0
  tableZ := TABLE_END_Z
  tableRotX := 0
  tableRotY := 0
  tableRotZ := 0
  candleX := 0
  candleY := CANDLE_END_Y
  candleZ := 0
  candleVisible := true

/-- A completed controller state whose signal refs sit at the terminal
values, used to exercise the completed branch. -/
def doneState : ControllerState where
  scene := endScene
  tl :=
    { animationStart := some 0
      hasPrimed := true
      hasCompleted := true
      completionNotified := true
      backgroundOpacity := 0
      environmentProgress := 1 }

/-- A completed controller state whose last-emitted signal values sit within
the deadband of the terminal values 0 and 1 (off by 1/250 = 0.004). -/
def nearDoneState : ControllerState where
  scene := endScene
  tl :=
    { animationStart := some 0
      hasPrimed := true
      hasCompleted := true
      completionNotified := true
      backgroundOpacity := 1/250
      environmentProgress := 249/250 }

section UtilityLemmas

theorem clamp_le_hi (v lo hi : ℚ) : clamp v lo hi ≤ hi := min_le_left _ _

theorem lo_le_clamp (v : ℚ) {lo hi : ℚ} (h : lo ≤ hi) : lo ≤ clamp v lo hi :=
  le_min h (le_max_left _ _)

theorem clamp_monotone {v w : ℚ} (lo hi : ℚ) (h : v ≤ w) :
    clamp v lo hi ≤ clamp w lo hi :=
  min_le_min le_rfl (max_le_max le_rfl h)

theorem clamp_eq_self {v lo hi : ℚ} (h1 : lo ≤ v) (h2 : v ≤ hi) :
    clamp v lo hi = v := by
  unfold clamp
  rw [max_eq_right h1, min_eq_right h2]

theorem clamp_eq_hi {v lo hi : ℚ} (h : hi ≤ v) : clamp v lo hi = hi := by
  unfold clamp
  exact min_eq_left (le_trans h (le_max_right _ _))

theorem easeOutCubic_monotone {t u : ℚ} (hu : u ≤ 1) (h : t ≤ u) :
    easeOutCubic t ≤ easeOutCubic u := by
  unfold easeOutCubic
  have hcube : (1 - u) ^ 3 ≤ (1 - t) ^ 3 :=
    pow_le_pow_left₀ (by linarith) (by linarith) 3
  linarith

theorem easeOutCubic_nonneg {t : ℚ} (h0 : 0 ≤ t) (h1 : t ≤ 1) :
    0 ≤ easeOutCubic t := by
  unfold easeOutCubic
  have : (1 - t) ^ 3 ≤ 1 := pow_le_one₀ (by linarith) (by linarith)
  linarith

theorem easeOutCubic_le_one {t : ℚ} (h1 : t ≤ 1) : easeOutCubic t ≤ 1 := by
  unfold easeOutCubic
  have : 0 ≤ (1 - t) ^ 3 := pow_nonneg (by linarith) 3
  linarith

theorem emitValue_fst_of_none {last v : ℚ} (h : (emitValue last v).2 = none) :
    (emitValue last v).1 = last := by
  simp only [emitValue] at h ⊢
  split_ifs at h ⊢ with hc
  rfl

theorem emitValue_close (last v : ℚ) :
    |(emitValue last v).1 - clamp v 0 1| ≤ 1/200 := by
  simp only [emitValue]
  split_ifs with hc
  · simp
  · push_neg at hc
    rw [abs_sub_comm]
    simpa using hc

theorem emitValue_event_val {last v w : ℚ}
    (h : w ∈ ((emitValue last v).2).toList) : w = clamp v 0 1 := by
  simp only [emitValue] at h
  split_ifs at h with hc
  · simpa using h
  · simp at h

theorem emitValue_pair_sum {lastOp lastPr vo vp : ℚ}
    (hlast : lastOp + lastPr = 1) (hv : vo + vp = 1)
    (h0 : 0 ≤ vo) (h1 : vo ≤ 1) :
    (emitValue lastOp vo).1 + (emitValue lastPr vp).1 = 1 := by
  have hvp : vp = 1 - vo := by linarith
  have hlp : lastPr = 1 - lastOp := by linarith
  subst hvp hlp
  simp only [emitValue]
  rw [clamp_eq_self h0 h1, clamp_eq_self (by linarith) (by linarith)]
  have habs : |1 - vo - (1 - lastOp)| = |vo - lastOp| := by
    rw [abs_sub_comm]
    ring_nf
  rw [habs]
  split_ifs with hc
  · show vo + (1 - vo) = 1
    ring
  · show lastOp + (1 - lastOp) = 1
    ring

end UtilityLemmas

/-- C1: with D1 = 3 and slideDuration = 0.7 the derived offsets are
tableSlideStart = 2.2, table end = 2.9, candle drop start = max(3, 2.9) + 1 = 4,
and with dropDuration = 1.2 the total duration is 5.2; a playing tick fed a
clock time giving clamped elapsed 5.2 yields cake.y = CAKE_END_Y,
table.z = TABLE_END_Z, candle visible at CANDLE_END_Y, emitted opacity 0,
emitted environment progress 1, and one completion-callback invocation. -/
theorem claim_scenario_constants_and_terminal_tick :
    CAKE_DESCENT_DURATION = 3 ∧ TABLE_SLIDE_DURATION = 7/10 ∧
    TABLE_SLIDE_START = 11/5 ∧ TABLE_SLIDE_START + TABLE_SLIDE_DURATION = 29/10 ∧
    CANDLE_DROP_START = 4 ∧ CANDLE_DROP_DURATION = 6/5 ∧
    totalAnimationTime = 26/5 ∧
    (tick true (26/5) readyState).1.scene.cakeY = CAKE_END_Y ∧
    (tick true (26/5) readyState).1.scene.tableZ = TABLE_END_Z ∧
    (tick true (26/5) readyState).1.scene.candleVisible = true ∧
    (tick true (26/5) readyState).1.scene.candleY = CANDLE_END_Y ∧
    (tick true (26/5) readyState).2.opacityEvents = [0] ∧
    (tick true (26/5) readyState).2.progressEvents = [1] ∧
    (tick true (26/5) readyState).2.completionCount = 1 := by
  norm_num [tick, playingTick, pauseTick, completedTick, primeIfNeeded,
    readyState, primedScene, endScene, emitValue, fadePair, clamp, lerp,
    easeOutCubic, cakeYAt, tableZAt, CAKE_START_Y, CAKE_END_Y,
    CAKE_DESCENT_DURATION, TABLE_START_Z, TABLE_END_Z, TABLE_SLIDE_DURATION,
    TABLE_SLIDE_START, CANDLE_START_Y, CANDLE_END_Y, CANDLE_DROP_DURATION,
    CANDLE_DROP_START, totalAnimationTime, BACKGROUND_FADE_DURATION,
    BACKGROUND_FADE_OFFSET, BACKGROUND_FADE_END, BACKGROUND_FADE_START]

/-- C5: the consumer callback is invoked iff the clamped value differs from
the stored last-emitted value by more than 0.005; on invocation the stored
value becomes the clamped value, otherwise both are unchanged. -/
theorem claim_emit_deadband (last v : ℚ) :
    ((emitValue last v).2 ≠ none ↔ 1/200 < |clamp v 0 1 - last|) ∧
    (1/200 < |clamp v 0 1 - last| →
      (emitValue last v).1 = clamp v 0 1 ∧
      (emitValue last v).2 = some (clamp v 0 1)) ∧
    (|clamp v 0 1 - last| ≤ 1/200 →
      (emitValue last v).1 = last ∧ (emitValue last v).2 = none) := by
  simp only [emitValue]
  split_ifs with hc
  · exact ⟨⟨fun _ => hc, fun _ => by simp⟩, fun _ => ⟨rfl, rfl⟩,
      fun h => absurd hc (not_lt.mpr h)⟩
  · exact ⟨⟨fun hne => absurd rfl hne, fun hlt => absurd hlt hc⟩,
      fun h => absurd h hc, fun _ => ⟨rfl, rfl⟩⟩

/-- Witness for C5 at a concrete deadband-exceeding input. -/
theorem claim_emit_deadband_witness :
    (emitValue 1 0).1 = clamp 0 0 1 ∧ (emitValue 1 0).2 = some (clamp 0 0 1) :=
  (claim_emit_deadband 1 0).2.1 (by norm_num [clamp])

/-- C6 counterexample: the claim says the table stays at TABLE_START_Z for
every clamped elapsed below max(cake descent duration, table slide start)
= max(3, 2.2) = 3; but at clamped elapsed 2.5 the code has already moved
the table (z = 1920/343 ≈ 5.6 ≠ 30). -/
theorem claim_table_start_counterexample :
    ((5:ℚ)/2 < max CAKE_DESCENT_DURATION TABLE_SLIDE_START) ∧
    clamp ((5:ℚ)/2 - 0) 0 totalAnimationTime = 5/2 ∧
    (tick true (5/2) readyState).1.scene.tableZ = 1920/343 ∧
    (tick true (5/2) readyState).1.scene.tableZ ≠ TABLE_START_Z := by
  norm_num [tick, playingTick, pauseTick, completedTick, primeIfNeeded,
    readyState, primedScene, endScene, emitValue, fadePair, clamp, lerp,
    easeOutCubic, cakeYAt, tableZAt, CAKE_START_Y, CAKE_END_Y,
    CAKE_DESCENT_DURATION, TABLE_START_Z, TABLE_END_Z, TABLE_SLIDE_DURATION,
    TABLE_SLIDE_START, CANDLE_START_Y, CANDLE_END_Y, CANDLE_DROP_DURATION,
    CANDLE_DROP_START, totalAnimationTime, BACKGROUND_FADE_DURATION,
    BACKGROUND_FADE_OFFSET, BACKGROUND_FADE_END, BACKGROUND_FADE_START]

/-- C7 counterexample: on the terminal tick the cake's y-rotation is snapped
to 0, not to the eased end value of one full turn (coefficient 2 of π). -/
theorem claim_terminal_snap_counterexample :
    (tick true (26/5) readyState).1.scene.cakeRotYPi = 0 ∧
    (tick true (26/5) readyState).1.scene.cakeRotYPi ≠ 2 := by
  norm_num [tick, playingTick, pauseTick, completedTick, primeIfNeeded,
    readyState, primedScene, endScene, emitValue, fadePair, clamp, lerp,
    easeOutCubic, cakeYAt, tableZAt, CAKE_START_Y, CAKE_END_Y,
    CAKE_DESCENT_DURATION, TABLE_START_Z, TABLE_END_Z, TABLE_SLIDE_DURATION,
    TABLE_SLIDE_START, CANDLE_START_Y, CANDLE_END_Y, CANDLE_DROP_DURATION,
    CANDLE_DROP_START, totalAnimationTime, BACKGROUND_FADE_DURATION,
    BACKGROUND_FADE_OFFSET, BACKGROUND_FADE_END, BACKGROUND_FADE_START]

/-- C10: after any emit call, the stored last-emitted value is within 0.005
of the clamped computed value; when nothing is forwarded the stored value is
unchanged, so a consumer's last received value can sit permanently up to
0.005 from the internal signal — including at completion, where the internal
values are exactly 0 and 1 but stored values 1/250 and 249/250 persist with
no further events. -/
theorem claim_emit_stored_within_deadband :
    (∀ last v : ℚ, |(emitValue last v).1 - clamp v 0 1| ≤ 1/200) ∧
    (∀ last v : ℚ, (emitValue last v).2 = none → (emitValue last v).1 = last) ∧
    emitValue (1/250) 0 = (1/250, none) ∧
    ((1:ℚ)/250 ≠ 0) ∧
    (tick true 9 nearDoneState).1.tl.backgroundOpacity = 1/250 ∧
    (tick true 9 nearDoneState).1.tl.environmentProgress = 249/250 ∧
    (tick true 9 nearDoneState).2.opacityEvents = [] ∧
    (tick true 9 nearDoneState).2.progressEvents = [] := by
  refine ⟨fun last v => emitValue_close last v,
    fun last v h => emitValue_fst_of_none h, ?_, by norm_num, ?_, ?_, ?_, ?_⟩ <;>
  norm_num [abs_of_nonneg, tick, playingTick, pauseTick, completedTick,
    primeIfNeeded, nearDoneState, primedScene, endScene, emitValue, fadePair, clamp, lerp,
    easeOutCubic, cakeYAt, tableZAt, CAKE_START_Y, CAKE_END_Y,
    CAKE_DESCENT_DURATION, TABLE_START_Z, TABLE_END_Z, TABLE_SLIDE_DURATION,
    TABLE_SLIDE_START, CANDLE_START_Y, CANDLE_END_Y, CANDLE_DROP_DURATION,
    CANDLE_DROP_START, totalAnimationTime, BACKGROUND_FADE_DURATION,
    BACKGROUND_FADE_OFFSET, BACKGROUND_FADE_END, BACKGROUND_FADE_START]

/-- Witness for C10's universally quantified conditional part at a concrete
input where nothing is forwarded. -/
theorem claim_emit_stored_within_deadband_witness :
    (emitValue (1/250) 0).1 = 1/250 := by
  have h := claim_emit_stored_within_deadband.2.1 (1/250) 0
    (by norm_num [abs_of_nonneg, emitValue, clamp])
  simpa using h

section CompletionLemmas

theorem tick_play_count (t : ℚ) (s : ControllerState) :
    (tick true t s).2.completionCount + (s.tl.completionNotified).toNat
      = ((tick true t s).1.tl.completionNotified).toNat := by
  rcases s with ⟨scene, ⟨as, hp, hcm, cn, bo, ep⟩⟩
  cases hp <;> cases hcm <;> cases cn <;>
    simp [tick, primeIfNeeded, completedTick, playingTick, Bool.toNat] <;>
    split_ifs <;> simp_all

theorem tick_play_notified_mono (t : ℚ) (s : ControllerState)
    (h : s.tl.completionNotified = true) :
    (tick true t s).1.tl.completionNotified = true := by
  have hcount := tick_play_count t s
  rw [h] at hcount
  cases h' : ((tick true t s).1.tl.completionNotified)
  · rw [h'] at hcount
    simp [Bool.toNat] at hcount
  · rfl

theorem tick_play_start_some (t a : ℚ) (s : ControllerState)
    (h : s.tl.animationStart = some a) :
    (tick true t s).1.tl.animationStart = some a := by
  rcases s with ⟨scene, ⟨as, hp, hcm, cn, bo, ep⟩⟩
  simp only [TimelineState.animationStart] at h
  subst h
  cases hp <;> cases hcm <;>
    simp [tick, primeIfNeeded, completedTick, playingTick] <;>
    split_ifs <;> simp

theorem tick_play_start_none (t : ℚ) (s : ControllerState)
    (h1 : s.tl.animationStart = none) (h2 : s.tl.hasCompleted = false) :
    (tick true t s).1.tl.animationStart = some t := by
  rcases s with ⟨scene, ⟨as, hp, hcm, cn, bo, ep⟩⟩
  simp only [TimelineState.animationStart] at h1
  simp only [TimelineState.hasCompleted] at h2
  subst h1 h2
  cases hp <;>
    simp [tick, primeIfNeeded, completedTick, playingTick] <;>
    split_ifs <;> simp

theorem totalAnimationTime_pos : (0:ℚ) < totalAnimationTime := by
  norm_num [totalAnimationTime, CANDLE_DROP_START, TABLE_SLIDE_START,
    TABLE_SLIDE_DURATION, CAKE_DESCENT_DURATION, CANDLE_DROP_DURATION]

theorem tick_play_fires (t a : ℚ) (s : ControllerState)
    (h : s.tl.animationStart = some a) (ht : a + totalAnimationTime ≤ t) :
    (tick true t s).1.tl.completionNotified = true := by
  rcases s with ⟨scene, ⟨as, hp, hcm, cn, bo, ep⟩⟩
  simp only [TimelineState.animationStart] at h
  subst h
  have hcl : clamp (t - a) 0 totalAnimationTime = totalAnimationTime :=
    clamp_eq_hi (by linarith)
  cases hcm
  · cases hp <;> simp [tick, primeIfNeeded, playingTick, hcl]
  · cases hp <;> simp [tick, primeIfNeeded, completedTick]

theorem runPlay_cons (t : ℚ) (ts : List ℚ) (s : ControllerState) :
    runPlay (t :: ts) s =
      ((runPlay ts (tick true t s).1).1,
       (tick true t s).2.completionCount + (runPlay ts (tick true t s).1).2) := rfl

theorem runPlay_count (ts : List ℚ) (s : ControllerState) :
    (runPlay ts s).2 + (s.tl.completionNotified).toNat
      = ((runPlay ts s).1.tl.completionNotified).toNat := by
  induction ts generalizing s with
  | nil => simp [runPlay]
  | cons t ts ih =>
    rw [runPlay_cons]
    have h1 := tick_play_count t s
    have h2 := ih (tick true t s).1
    dsimp only at h1 h2 ⊢
    omega

theorem runPlay_notified_mono (ts : List ℚ) (s : ControllerState)
    (h : s.tl.completionNotified = true) :
    (runPlay ts s).1.tl.completionNotified = true := by
  induction ts generalizing s with
  | nil => simpa [runPlay] using h
  | cons t ts ih =>
    rw [runPlay_cons]
    exact ih (tick true t s).1 (tick_play_notified_mono t s h)

theorem runPlay_fires (ts : List ℚ) (s : ControllerState) (a : ℚ)
    (h : s.tl.animationStart = some a)
    (hq : ∃ t ∈ ts, a + totalAnimationTime ≤ t) :
    (runPlay ts s).1.tl.completionNotified = true := by
  induction ts generalizing s with
  | nil =>
    rcases hq with ⟨u, hu, _⟩
    simp at hu
  | cons t ts ih =>
    rw [runPlay_cons]
    rcases hq with ⟨u, hu, hut⟩
    rcases List.mem_cons.mp hu with rfl | humem
    · exact runPlay_notified_mono ts _ (tick_play_fires u a s h hut)
    · exact ih (tick true t s).1 (tick_play_start_some t a s h) ⟨u, humem, hut⟩

end CompletionLemmas

/-- C2: within one continuous play session, the completion callback fires
exactly once no matter how many playing ticks arrive after clamped elapsed
reaches the total duration; and once `hasCompleted` is true every playing
tick leaves the scene transforms untouched and emits only opacity 0 /
progress 1. -/
theorem claim_completion_exactly_once :
    (∀ (t0 : ℚ) (rest : List ℚ) (s : ControllerState),
      s.tl.animationStart = none → s.tl.hasCompleted = false →
      s.tl.completionNotified = false →
      (∃ t ∈ rest, t0 + totalAnimationTime ≤ t) →
      (runPlay (t0 :: rest) s).2 = 1) ∧
    (∀ (t : ℚ) (s : ControllerState),
      s.tl.hasPrimed = true → s.tl.hasCompleted = true →
      (tick true t s).1.scene = s.scene ∧
      (∀ v ∈ (tick true t s).2.opacityEvents, v = 0) ∧
      (∀ v ∈ (tick true t s).2.progressEvents, v = 1)) := by
  constructor
  · intro t0 rest s h1 h2 h3 hq
    have hstart : (tick true t0 s).1.tl.animationStart = some t0 :=
      tick_play_start_none t0 s h1 h2
    have hfin : (runPlay rest (tick true t0 s).1).1.tl.completionNotified = true :=
      runPlay_fires rest _ t0 hstart hq
    have hcount := runPlay_count (t0 :: rest) s
    rw [runPlay_cons] at hcount
    rw [runPlay_cons]
    rw [h3] at hcount
    dsimp only at hcount ⊢
    rw [hfin] at hcount
    simp [Bool.toNat] at hcount
    omega
  · intro t s hp hc
    rcases s with ⟨scene, ⟨as, hp', hcm, cn, bo, ep⟩⟩
    simp only [TimelineState.hasPrimed] at hp
    simp only [TimelineState.hasCompleted] at hc
    subst hp hc
    refine ⟨?_, ?_, ?_⟩
    · simp [tick, primeIfNeeded, completedTick]
    · intro v hv
      simp only [tick, primeIfNeeded, completedTick, Bool.not_true,
        Bool.false_eq_true, if_false, if_true] at hv
      have := emitValue_event_val hv
      rw [this]
      norm_num [clamp]
    · intro v hv
      simp only [tick, primeIfNeeded, completedTick, Bool.not_true,
        Bool.false_eq_true, if_false, if_true] at hv
      have := emitValue_event_val hv
      rw [this]
      norm_num [clamp]

/-- Witness for C2 at a concrete session: two ticks at clock times 0 and 6
(elapsed 6 exceeds the 5.2s total) produce exactly one completion, and a
playing tick on a completed state leaves the scene untouched. -/
theorem claim_completion_exactly_once_witness :
    (runPlay [0, 6] initialState).2 = 1 ∧
    (tick true 9 doneState).1.scene = doneState.scene :=
  ⟨claim_completion_exactly_once.1 0 [6] initialState rfl rfl rfl
      ⟨6, by simp, by norm_num [totalAnimationTime, CANDLE_DROP_START,
        TABLE_SLIDE_START, TABLE_SLIDE_DURATION, CAKE_DESCENT_DURATION,
        CANDLE_DROP_DURATION]⟩,
   (claim_completion_exactly_once.2 9 doneState rfl rfl).1⟩

/-- C3: every tick with isPlaying = false runs emit(1) / emit(0) through the
deadband, clears the animation start time, resets `hasCompleted` and
`completionNotified`, and leaves every scene transform exactly as it was;
any forwarded values are exactly 1 (opacity) and 0 (progress). -/
theorem claim_pause_resets_signals_only (t : ℚ) (s : ControllerState)
    (h : s.tl.hasPrimed = true) :
    tick false t s =
      ({ scene := s.scene,
         tl := { animationStart := none
                 hasPrimed := true
                 hasCompleted := false
                 completionNotified := false
                 backgroundOpacity := (emitValue s.tl.backgroundOpacity 1).1
                 environmentProgress := (emitValue s.tl.environmentProgress 0).1 } },
       { opacityEvents := ((emitValue s.tl.backgroundOpacity 1).2).toList
         progressEvents := ((emitValue s.tl.environmentProgress 0).2).toList
         completionCount := 0 }) ∧
    (∀ v ∈ (tick false t s).2.opacityEvents, v = 1) ∧
    (∀ v ∈ (tick false t s).2.progressEvents, v = 0) := by
  rcases s with ⟨scene, ⟨as, hp, hcm, cn, bo, ep⟩⟩
  simp only [TimelineState.hasPrimed] at h
  subst h
  refine ⟨?_, ?_, ?_⟩
  · simp [tick, primeIfNeeded, pauseTick]
  · intro v hv
    simp only [tick, primeIfNeeded, pauseTick, Bool.not_false, if_true] at hv
    have := emitValue_event_val hv
    rw [this]
    norm_num [clamp]
  · intro v hv
    simp only [tick, primeIfNeeded, pauseTick, Bool.not_false, if_true] at hv
    have := emitValue_event_val hv
    rw [this]
    norm_num [clamp]

/-- Witness for C3 at a concrete mid-flight state. -/
theorem claim_pause_resets_signals_only_witness :
    (tick false 3 readyState).1.scene = readyState.scene ∧
    (tick false 3 readyState).1.tl.animationStart = none :=
  ⟨by rw [(claim_pause_resets_signals_only 3 readyState rfl).1],
   by rw [(claim_pause_resets_signals_only 3 readyState rfl).1]⟩

section FadeLemmas

theorem fadePair_sum (e : ℚ) : (fadePair e).1 + (fadePair e).2 = 1 := by
  simp only [fadePair]
  split_ifs <;> norm_num

theorem fadePair_fst_mem (e : ℚ) : 0 ≤ (fadePair e).1 ∧ (fadePair e).1 ≤ 1 := by
  simp only [fadePair]
  split_ifs with h
  · norm_num
  · have h0 : (0:ℚ) ≤
        clamp ((e - BACKGROUND_FADE_START) / BACKGROUND_FADE_DURATION) 0 1 :=
      lo_le_clamp _ (by norm_num)
    have h1 : clamp ((e - BACKGROUND_FADE_START) / BACKGROUND_FADE_DURATION) 0 1 ≤ 1 :=
      clamp_le_hi _ _ _
    have he0 := easeOutCubic_nonneg h0 h1
    have he1 := easeOutCubic_le_one h1
    constructor <;> dsimp only <;> linarith

theorem pauseTick_sum (s : ControllerState)
    (h : s.tl.backgroundOpacity + s.tl.environmentProgress = 1) :
    (pauseTick s).1.tl.backgroundOpacity +
      (pauseTick s).1.tl.environmentProgress = 1 := by
  simp only [pauseTick]
  exact emitValue_pair_sum h (by norm_num) (by norm_num) (by norm_num)

theorem completedTick_sum (s : ControllerState)
    (h : s.tl.backgroundOpacity + s.tl.environmentProgress = 1) :
    (completedTick s).1.tl.backgroundOpacity +
      (completedTick s).1.tl.environmentProgress = 1 := by
  simp only [completedTick]
  exact emitValue_pair_sum h (by norm_num) (by norm_num) (by norm_num)

theorem playingTick_sum (t : ℚ) (s : ControllerState)
    (h : s.tl.backgroundOpacity + s.tl.environmentProgress = 1) :
    (playingTick t s).1.tl.backgroundOpacity +
      (playingTick t s).1.tl.environmentProgress = 1 := by
  simp only [playingTick]
  split_ifs <;> dsimp only <;>
    first
      | exact emitValue_pair_sum
          (emitValue_pair_sum h (fadePair_sum _) (fadePair_fst_mem _).1
            (fadePair_fst_mem _).2)
          (by norm_num) (by norm_num) (by norm_num)
      | exact emitValue_pair_sum h (fadePair_sum _) (fadePair_fst_mem _).1
          (fadePair_fst_mem _).2

theorem primeIfNeeded_signals (s : ControllerState) :
    (primeIfNeeded s).tl.backgroundOpacity = s.tl.backgroundOpacity ∧
    (primeIfNeeded s).tl.environmentProgress = s.tl.environmentProgress ∧
    (primeIfNeeded s).tl.hasCompleted = s.tl.hasCompleted ∧
    (primeIfNeeded s).tl.animationStart = s.tl.animationStart := by
  simp only [primeIfNeeded]
  split_ifs <;> simp

theorem tick_signals_sum (p : Bool) (t : ℚ) (s : ControllerState)
    (h : s.tl.backgroundOpacity + s.tl.environmentProgress = 1) :
    (tick p t s).1.tl.backgroundOpacity +
      (tick p t s).1.tl.environmentProgress = 1 := by
  have hsig := primeIfNeeded_signals s
  have h' : (primeIfNeeded s).tl.backgroundOpacity +
      (primeIfNeeded s).tl.environmentProgress = 1 := by
    rw [hsig.1, hsig.2.1]; exact h
  simp only [tick]
  cases p
  · simpa using pauseTick_sum _ h'
  · by_cases hcm : (primeIfNeeded s).tl.hasCompleted
    · simpa [hcm] using completedTick_sum _ h'
    · simpa [hcm] using playingTick_sum t _ h'

end FadeLemmas

/-- C4: the computed background-opacity / environment-progress pair always
sums to 1 — (1, 0) before the fade window, (1 − eased, eased) inside it,
(0, 1) at the total duration — and any tick preserves the invariant that the
stored last-emitted pair sums to 1. -/
theorem claim_signals_complementary :
    (∀ e : ℚ, (fadePair e).1 + (fadePair e).2 = 1) ∧
    (∀ e : ℚ, e < BACKGROUND_FADE_START → fadePair e = (1, 0)) ∧
    (∀ e : ℚ, BACKGROUND_FADE_START ≤ e →
      fadePair e =
        (1 - easeOutCubic
          (clamp ((e - BACKGROUND_FADE_START) / BACKGROUND_FADE_DURATION) 0 1),
         easeOutCubic
          (clamp ((e - BACKGROUND_FADE_START) / BACKGROUND_FADE_DURATION) 0 1))) ∧
    fadePair totalAnimationTime = (0, 1) ∧
    (∀ (p : Bool) (t : ℚ) (s : ControllerState),
      s.tl.backgroundOpacity + s.tl.environmentProgress = 1 →
      (tick p t s).1.tl.backgroundOpacity +
        (tick p t s).1.tl.environmentProgress = 1) := by
  refine ⟨fadePair_sum, ?_, ?_, ?_, tick_signals_sum⟩
  · intro e he
    simp [fadePair, he]
  · intro e he
    simp only [fadePair, not_lt.mpr he, if_false]
    simp only [Prod.mk.injEq]
    exact ⟨trivial, by ring⟩
  · norm_num [fadePair, clamp, easeOutCubic, totalAnimationTime,
      CANDLE_DROP_START, CANDLE_DROP_DURATION, TABLE_SLIDE_START,
      TABLE_SLIDE_DURATION, CAKE_DESCENT_DURATION, BACKGROUND_FADE_START,
      BACKGROUND_FADE_END, BACKGROUND_FADE_DURATION, BACKGROUND_FADE_OFFSET]

/-- Witness for C4 at concrete inputs: before the window the pair is (1, 0),
and one playing tick from the ready state preserves the sum invariant. -/
theorem claim_signals_complementary_witness :
    fadePair 1 = (1, 0) ∧
    (tick true 0 readyState).1.tl.backgroundOpacity +
      (tick true 0 readyState).1.tl.environmentProgress = 1 :=
  ⟨claim_signals_complementary.2.1 1
    (by norm_num [BACKGROUND_FADE_START, BACKGROUND_FADE_END,
      BACKGROUND_FADE_DURATION, BACKGROUND_FADE_OFFSET, CANDLE_DROP_START,
      TABLE_SLIDE_START, TABLE_SLIDE_DURATION, CAKE_DESCENT_DURATION]),
   claim_signals_complementary.2.2.2.2 true 0 readyState
    (by norm_num [readyState])⟩

section SegmentLemmas

theorem tableZAt_total : tableZAt totalAnimationTime = TABLE_END_Z := by
  norm_num [tableZAt, lerp, easeOutCubic, clamp, TABLE_SLIDE_START,
    TABLE_SLIDE_DURATION, CAKE_DESCENT_DURATION, TABLE_START_Z, TABLE_END_Z,
    totalAnimationTime, CANDLE_DROP_START, CANDLE_DROP_DURATION]

theorem cakeYAt_total : cakeYAt totalAnimationTime = CAKE_END_Y := by
  norm_num [cakeYAt, lerp, easeOutCubic, clamp, CAKE_START_Y, CAKE_END_Y,
    CAKE_DESCENT_DURATION, totalAnimationTime, CANDLE_DROP_START,
    CANDLE_DROP_DURATION, TABLE_SLIDE_START, TABLE_SLIDE_DURATION]

theorem playingTick_tableZ (t : ℚ) (s : ControllerState) (a : ℚ)
    (h : s.tl.animationStart = some a) :
    (playingTick t s).1.scene.tableZ =
      tableZAt (clamp (t - a) 0 totalAnimationTime) := by
  simp only [playingTick, h, Option.getD_some]
  split_ifs with hd hc hc <;> dsimp only <;>
    first
      | rfl
      | rw [le_antisymm (clamp_le_hi _ _ _) hd, tableZAt_total]

theorem playingTick_cakeY (t : ℚ) (s : ControllerState) (a : ℚ)
    (h : s.tl.animationStart = some a) :
    (playingTick t s).1.scene.cakeY =
      cakeYAt (clamp (t - a) 0 totalAnimationTime) := by
  simp only [playingTick, h, Option.getD_some]
  split_ifs with hd hc hc <;> dsimp only <;>
    first
      | rfl
      | rw [le_antisymm (clamp_le_hi _ _ _) hd, cakeYAt_total]

theorem playingTick_done_scene (t : ℚ) (s : ControllerState) (a : ℚ)
    (h : s.tl.animationStart = some a) (ht : a + totalAnimationTime ≤ t) :
    (playingTick t s).1.scene = endScene := by
  have hcl : clamp (t - a) 0 totalAnimationTime = totalAnimationTime :=
    clamp_eq_hi (by linarith)
  simp only [playingTick, h, Option.getD_some, hcl]
  rw [if_pos le_rfl]
  split_ifs <;> rfl

theorem tick_to_playing (t : ℚ) (s : ControllerState)
    (h : s.tl.hasCompleted = false) :
    tick true t s = playingTick t (primeIfNeeded s) := by
  have hcm : (primeIfNeeded s).tl.hasCompleted = false := by
    rw [(primeIfNeeded_signals s).2.2.1]; exact h
  simp [tick, hcm]

end SegmentLemmas

/-- C6 amended: the table segment starts at elapsed TABLE_SLIDE_START
(= D1 − slideDuration − 0.1 = 2.2), not at max(D1, tableSlideStart): the
playing tick writes table.z = tableZAt of the clamped elapsed, which equals
TABLE_START_Z below TABLE_SLIDE_START and eases start-Z → end-Z at or after
it. -/
theorem claim_table_start_amended (t a : ℚ) (s : ControllerState)
    (h1 : s.tl.hasCompleted = false) (h2 : s.tl.animationStart = some a) :
    (tick true t s).1.scene.tableZ =
      tableZAt (clamp (t - a) 0 totalAnimationTime) ∧
    (∀ e : ℚ, e < TABLE_SLIDE_START → tableZAt e = TABLE_START_Z) ∧
    (∀ e : ℚ, TABLE_SLIDE_START ≤ e →
      tableZAt e = lerp TABLE_START_Z TABLE_END_Z
        (easeOutCubic (clamp ((e - TABLE_SLIDE_START) / TABLE_SLIDE_DURATION) 0 1))) := by
  refine ⟨?_, ?_, ?_⟩
  · rw [tick_to_playing t s h1]
    exact playingTick_tableZ t _ a (by rw [(primeIfNeeded_signals s).2.2.2]; exact h2)
  · intro e he
    simp [tableZAt, not_le.mpr he]
  · intro e he
    simp [tableZAt, he]

/-- Witness for C6's amended claim at a concrete mid-slide tick. -/
theorem claim_table_start_amended_witness :
    (tick true (5/2) readyState).1.scene.tableZ =
      tableZAt (clamp (5/2 - 0) 0 totalAnimationTime) :=
  (claim_table_start_amended (5/2) 0 readyState rfl rfl).1

/-- C7 amended: on a tick whose clamped elapsed reaches the total duration,
every transform is snapped to the exact end pose `endScene`: cake at
(0, CAKE_END_Y, 0), table at (0, 0, TABLE_END_Z), candle visible at
(0, CANDLE_END_Y, 0) — and the cake's y-rotation is snapped to 0 (one full
turn reduced modulo 2π), not to the eased end value 2π. -/
theorem claim_terminal_snap_amended (t a : ℚ) (s : ControllerState)
    (h1 : s.tl.hasCompleted = false) (h2 : s.tl.animationStart = some a)
    (ht : a + totalAnimationTime ≤ t) :
    (tick true t s).1.scene = endScene ∧
    endScene.cakeY = CAKE_END_Y ∧ endScene.cakeX = 0 ∧ endScene.cakeZ = 0 ∧
    endScene.cakeRotYPi = 0 ∧ endScene.tableZ = TABLE_END_Z ∧
    endScene.candleY = CANDLE_END_Y ∧ endScene.candleVisible = true := by
  refine ⟨?_, rfl, rfl, rfl, rfl, rfl, rfl, rfl⟩
  rw [tick_to_playing t s h1]
  exact playingTick_done_scene t _ a
    (by rw [(primeIfNeeded_signals s).2.2.2]; exact h2) ht

/-- Witness for C7's amended claim at the concrete terminal tick. -/
theorem claim_terminal_snap_amended_witness :
    (tick true (26/5) readyState).1.scene = endScene :=
  (claim_terminal_snap_amended (26/5) 0 readyState rfl rfl
    (by norm_num [totalAnimationTime, CANDLE_DROP_START, TABLE_SLIDE_START,
      TABLE_SLIDE_DURATION, CAKE_DESCENT_DURATION, CANDLE_DROP_DURATION])).1

/-- C8: the cake's y position as computed by the playing tick is
`cakeYAt` of the clamped elapsed time; `cakeYAt` is monotonically
non-increasing on [0, totalAnimationTime], starts at CAKE_START_Y at 0,
and equals CAKE_END_Y exactly at the total duration. -/
theorem claim_cake_monotone :
    (∀ e1 e2 : ℚ, 0 ≤ e1 → e1 ≤ e2 → e2 ≤ totalAnimationTime →
      cakeYAt e2 ≤ cakeYAt e1) ∧
    cakeYAt 0 = CAKE_START_Y ∧
    cakeYAt totalAnimationTime = CAKE_END_Y ∧
    (∀ (t a : ℚ) (s : ControllerState), s.tl.hasCompleted = false →
      s.tl.animationStart = some a →
      (tick true t s).1.scene.cakeY =
        cakeYAt (clamp (t - a) 0 totalAnimationTime)) := by
  refine ⟨?_, ?_, cakeYAt_total, ?_⟩
  · intro e1 e2 h0 h12 h2t
    have hdiv : e1 / CAKE_DESCENT_DURATION ≤ e2 / CAKE_DESCENT_DURATION := by
      simp only [CAKE_DESCENT_DURATION]
      exact (div_le_div_iff_of_pos_right (by norm_num)).mpr h12
    have hcl : clamp (e1 / CAKE_DESCENT_DURATION) 0 1 ≤
        clamp (e2 / CAKE_DESCENT_DURATION) 0 1 := clamp_monotone 0 1 hdiv
    have hle1 : clamp (e2 / CAKE_DESCENT_DURATION) 0 1 ≤ 1 := clamp_le_hi _ _ _
    have hease := easeOutCubic_monotone hle1 hcl
    simp only [cakeYAt, lerp, CAKE_START_Y, CAKE_END_Y]
    linarith
  · norm_num [cakeYAt, lerp, easeOutCubic, clamp, CAKE_START_Y, CAKE_END_Y,
      CAKE_DESCENT_DURATION]
  · intro t a s h1 h2
    rw [tick_to_playing t s h1]
    exact playingTick_cakeY t _ a (by rw [(primeIfNeeded_signals s).2.2.2]; exact h2)

/-- Witness for C8 at concrete inputs. -/
theorem claim_cake_monotone_witness :
    cakeYAt totalAnimationTime ≤ cakeYAt 0 ∧
    (tick true 1 readyState).1.scene.cakeY =
      cakeYAt (clamp (1 - 0) 0 totalAnimationTime) :=
  ⟨claim_cake_monotone.1 0 totalAnimationTime le_rfl
      (le_of_lt totalAnimationTime_pos) le_rfl,
   claim_cake_monotone.2.2.2 1 0 readyState rfl rfl⟩

section TypingLemmas

theorem skipEmptyFrom_eq (lines : List String) (i : Nat) :
    skipEmptyFrom lines i =
      if i < lines.length then
        (if (lines.getD i "").length = 0 then skipEmptyFrom lines (i + 1) else i)
      else i := by
  unfold skipEmptyFrom
  by_cases h : i < lines.length
  · rw [List.drop_eq_getElem_cons h]
    simp only [skipEmptyAux]
    rw [if_pos h]
    have hg : lines.getD i "" = lines[i] := by
      simp [List.getD_eq_getElem?_getD, List.getElem?_eq_getElem h]
    rw [hg]
  · rw [List.drop_eq_nil_of_le (le_of_not_lt h)]
    simp only [skipEmptyAux]
    rw [if_neg h]

theorem skipEmptyFrom_ge (lines : List String) (i : Nat) :
    i ≤ skipEmptyFrom lines i := by
  rw [skipEmptyFrom_eq]
  split_ifs with h1 h2
  · exact le_trans (Nat.le_succ i) (skipEmptyFrom_ge lines (i + 1))
  · exact le_rfl
  · exact le_rfl
termination_by lines.length - i
decreasing_by omega

theorem skipEmptyFrom_skipped (lines : List String) (i j : Nat) (hij : i ≤ j)
    (hj : j < skipEmptyFrom lines i) : (lines.getD j "").length = 0 := by
  rw [skipEmptyFrom_eq] at hj
  split_ifs at hj with h1 h2
  · rcases Nat.eq_or_lt_of_le hij with rfl | hlt
    · exact h2
    · exact skipEmptyFrom_skipped lines (i + 1) j hlt hj
  · omega
  · omega
termination_by lines.length - i
decreasing_by omega

theorem skipEmptyFrom_stops (lines : List String) (i : Nat)
    (h : skipEmptyFrom lines i < lines.length) :
    (lines.getD (skipEmptyFrom lines i) "").length ≠ 0 := by
  rw [skipEmptyFrom_eq] at h ⊢
  split_ifs at h ⊢ with h1 h2
  · exact skipEmptyFrom_stops lines (i + 1) h
  · exact h2
  · omega
termination_by lines.length - i
decreasing_by omega

theorem skipEmptyFrom_all_empty (lines : List String) (i : Nat)
    (hall : ∀ k, i ≤ k → k < lines.length → (lines.getD k "").length = 0) :
    lines.length ≤ skipEmptyFrom lines i := by
  rw [skipEmptyFrom_eq]
  split_ifs with h1 h2
  · exact skipEmptyFrom_all_empty lines (i + 1)
      (fun k hk hk2 => hall k (by omega) hk2)
  · exact absurd (hall i le_rfl h1) h2
  · omega
termination_by lines.length - i
decreasing_by omega

end TypingLemmas

/-- C9: when the typed-text sequencer finishes revealing a line it advances
directly to the next non-empty line, skipping every zero-length line in
between, or marks typing complete if only empty lines remain; in particular
with lines ["A", "", "B"], after "A" is fully typed the next revealed line
is "B" (index 2), never the empty line at index 1. -/
theorem claim_typing_skips_empty :
    typeStep ["A", "", "B"] ⟨0, 1⟩ = ⟨2, 0⟩ ∧
    (["A", "", "B"].getD 2 "") = "B" ∧
    typingComplete ["A", "", "B"] (typeStep ["A", "", "B"] ⟨2, 1⟩) = true ∧
    (∀ (lines : List String) (st : TypingState),
      typingComplete lines st = false →
      (lines.getD st.lineIndex "").length ≤ st.charIndex →
      typeStep lines st = ⟨skipEmptyFrom lines (st.lineIndex + 1), 0⟩) ∧
    (∀ (lines : List String) (i j : Nat), i ≤ j → j < skipEmptyFrom lines i →
      (lines.getD j "").length = 0) ∧
    (∀ (lines : List String) (i : Nat), skipEmptyFrom lines i < lines.length →
      (lines.getD (skipEmptyFrom lines i) "").length ≠ 0) ∧
    (∀ (lines : List String) (i : Nat), i ≤ skipEmptyFrom lines i) ∧
    (∀ (lines : List String) (st : TypingState),
      typingComplete lines st = false →
      (lines.getD st.lineIndex "").length ≤ st.charIndex →
      (∀ k, st.lineIndex + 1 ≤ k → k < lines.length →
        (lines.getD k "").length = 0) →
      typingComplete lines (typeStep lines st) = true) := by
  refine ⟨by decide, by decide, by decide, ?_, skipEmptyFrom_skipped,
    skipEmptyFrom_stops, skipEmptyFrom_ge, ?_⟩
  · intro lines st hc hlen
    simp only [typeStep, hc, Bool.false_eq_true, if_false, not_lt.mpr hlen,
      if_neg (not_lt.mpr hlen)]
  · intro lines st hc hlen hall
    have hstep : typeStep lines st = ⟨skipEmptyFrom lines (st.lineIndex + 1), 0⟩ := by
      simp only [typeStep, hc, Bool.false_eq_true, if_false,
        if_neg (not_lt.mpr hlen)]
    rw [hstep]
    have hge := skipEmptyFrom_all_empty lines (st.lineIndex + 1) hall
    simp [typingComplete, hge]

/-- Witness for C9's conditional parts at the concrete line list. -/
theorem claim_typing_skips_empty_witness :
    typeStep ["A", "", "B"] ⟨0, 1⟩ =
      ⟨skipEmptyFrom ["A", "", "B"] (0 + 1), 0⟩ ∧
    (0:Nat) ≤ skipEmptyFrom ["A", "", "B"] 0 :=
  ⟨claim_typing_skips_empty.2.2.2.1 ["A", "", "B"] ⟨0, 1⟩ (by decide) (by decide),
   claim_typing_skips_empty.2.2.2.2.2.2.1 ["A", "", "B"] 0⟩

end BirthdayGallery


